import Mathlib

/-!
Verification of the EDA quality-scoring engine
(`src/homeworks/HW04/eda-cli/src/eda_cli/core.py` and
`src/homeworks/HW04/eda-cli/src/eda_cli/api.py`).

The shallow embedding models a pandas DataFrame as an ordered list of named,
typed columns of equal length.  A cell is `Option Val`: `none` is the null
marker (NaN / None), `some` a concrete numeric or string value.  Python float
arithmetic is idealised as exact rational arithmetic; the one place where the
IEEE behaviour is observable on the claims (division `0 / 0` when `n_rows = 0`,
which yields NaN, and NaN comparisons are false) is modelled explicitly in
`shareGt` / `shareGe`.
-/

namespace EdaCli

/-- A non-null cell value: numeric (int64/float64) or string (object dtype). -/
inductive Val where
  | num (q : ℚ)
  | str (s : String)
deriving DecidableEq

/-- A DataFrame cell; `none` is the null marker (NaN / None). -/
abbrev Cell := Option Val

/-- The pandas dtype kind of a column, as used by `select_dtypes` in the
source: `numeric` covers int64/float64, `categorical` covers object/category. -/
inductive Dtype where
  | numeric
  | categorical
  | other
deriving DecidableEq

/-- A named column of a DataFrame. -/
structure Column where
  name : String
  dtype : Dtype
  values : List Cell
deriving DecidableEq

/-- A DataFrame: a row count and an ordered list of columns. -/
structure Dataset where
  n_rows : ℕ
  cols : List Column
deriving DecidableEq

/-- Well-formedness: every column has exactly `n_rows` values. -/
def Dataset.WF (df : Dataset) : Prop :=
  ∀ c ∈ df.cols, c.values.length = df.n_rows

instance (df : Dataset) : Decidable df.WF :=
  List.decidableBAll _ df.cols

/-- Number of null cells of a column: `df[col].isnull().sum()`. -/
def missingCount (c : Column) : ℕ :=
  c.values.countP (fun v => v = none)

/-- Number of exact-zero cells of a column: `(df[col] == 0).sum()`.
In pandas `NaN == 0` is false, which `none ≠ some (Val.num 0)` mirrors. -/
def zeroCount (c : Column) : ℕ :=
  c.values.countP (fun v => v = some (Val.num 0))

/-- Number of distinct non-null values: `df[col].nunique()` (whose default is
`dropna=True`, also written explicitly as `nunique(dropna=True)` in the
constant-column probe of the source). -/
def nuniqueDropna (c : Column) : ℕ :=
  (c.values.filterMap id).toFinset.card

/-- Number of distinct values counting the null marker as one distinct value
(`nunique(dropna=False)` semantics).  The source never computes this; it is
the quantity the spec text describes for the constant-column probe, kept here
to compare the spec with the source. -/
def distinctWithNull (c : Column) : ℕ :=
  c.values.toFinset.card

/-- The float comparison `count / n > t` of the source, with the IEEE
behaviour at `n = 0` made explicit: there the source computes `0 / 0 = NaN`
(the count of a 0-row column is 0) and every NaN comparison is false. -/
def shareGt (cnt n : ℕ) (t : ℚ) : Bool :=
  if n = 0 then false else decide ((cnt : ℚ) / (n : ℚ) > t)

/-- The float comparison `count / n >= t` of the source, with the same `n = 0`
NaN convention as `shareGt`. -/
def shareGe (cnt n : ℕ) (t : ℚ) : Bool :=
  if n = 0 then false else decide ((cnt : ℚ) / (n : ℚ) ≥ t)

/-- Python `max` over ℤ, written so that the kernel can evaluate it. -/
def intMax (a b : ℤ) : ℤ := if a ≤ b then b else a

/-- Python `max` over ℚ, written so that the kernel can evaluate it. -/
def ratMax (a b : ℚ) : ℚ := if a ≤ b then b else a

/-- Python `min` over ℚ, written so that the kernel can evaluate it. -/
def ratMin (a b : ℚ) : ℚ := if a ≤ b then a else b

/-- Round half to even (the semantics of Python `round`), idealised over ℚ and
computed on the numerator and denominator: with `f = ⌊q⌋` the fractional part
`q - f` equals `(num - f * den) / den`, and comparing it with `1/2` is
comparing `2 * (num - f * den)` with `den`. -/
def roundHalfEven (q : ℚ) : ℤ :=
  let f := Int.fdiv q.num q.den
  let r2 := 2 * (q.num - f * q.den)
  if r2 < (q.den : ℤ) then f
  else if (q.den : ℤ) < r2 then f + 1
  else if f % 2 = 0 then f else f + 1

/-- Python `round(x, 4)` idealised over ℚ. -/
def round4 (q : ℚ) : ℚ :=
  Rat.divInt (roundHalfEven (q * 10000)) 10000

/-- Row `i` of the DataFrame: the `i`-th cell of every column in order
(out-of-range indices, excluded by well-formedness, default to null). -/
def rowAt (df : Dataset) (i : ℕ) : List Cell :=
  df.cols.map (fun c => c.values.getD i none)

/-- All rows of the DataFrame in order. -/
def rowsOf (df : Dataset) : List (List Cell) :=
  (List.range df.n_rows).map (rowAt df)

/-- The count made by `df.duplicated().sum()`: a row is marked iff an earlier
row is element-wise equal to it (pandas compares null markers as equal here),
and the marks are summed.  `seen` accumulates the rows already passed. -/
def countDups (seen : Finset (List Cell)) : List (List Cell) → ℕ
  | [] => 0
  | r :: rs => (if r ∈ seen then 1 else 0) + countDups (insert r seen) rs

/-- Embedding of `df.duplicated().sum()` from the source. -/
def duplicateCount (df : Dataset) : ℕ :=
  countDups ∅ (rowsOf df)

/-- Output record of `compute_quality_flags` (the `flags` dict of the source,
as a typed record; `zero_shares` keeps the insertion order of the dict). -/
structure QualityFlags where
  has_high_missing : Bool
  high_missing_columns : List String
  has_duplicates : Bool
  duplicate_count : ℕ
  has_constant_columns : Bool
  constant_columns : List String
  has_high_cardinality_categoricals : Bool
  high_cardinality_columns : List String
  has_many_zero_values : Bool
  high_zero_columns : List String
  zero_shares : List (String × ℚ)
  quality_score : ℤ
deriving DecidableEq

/-- Default `missing_threshold` of the source. -/
def defaultMissingThreshold : ℚ := 3/10

/-- Default `high_cardinality_threshold` of the source. -/
def defaultHighCardinalityThreshold : ℕ := 50

/-- Default `zero_threshold` of the source. -/
def defaultZeroThreshold : ℚ := 1/2

/-- Embedding of `compute_quality_flags` from
`src/homeworks/HW04/eda-cli/src/eda_cli/core.py`, lines 128-206.
The five probes run unconditionally (the source performs no validation of the
threshold parameters), and the score is `max(0, 100 - penalties)`. -/
def compute_quality_flags (df : Dataset) (missing_threshold : ℚ)
    (high_cardinality_threshold : ℕ) (zero_threshold : ℚ) : QualityFlags :=
  let n := df.n_rows
  let colsHighMissing :=
    (df.cols.filter (fun c => shareGt (missingCount c) n missing_threshold)).map
      Column.name
  let dupCount := duplicateCount df
  let constantCols :=
    (df.cols.filter (fun c => nuniqueDropna c ≤ 1)).map Column.name
  let catCols := df.cols.filter (fun c => c.dtype = Dtype.categorical)
  let highCardCols :=
    (catCols.filter (fun c => high_cardinality_threshold < nuniqueDropna c)).map
      Column.name
  let numCols := df.cols.filter (fun c => c.dtype = Dtype.numeric)
  let highZeroCols :=
    (numCols.filter (fun c => shareGt (zeroCount c) n zero_threshold)).map
      Column.name
  let zeroSharesL :=
    numCols.map (fun c => (c.name, round4 ((zeroCount c : ℚ) / (n : ℚ))))
  let hasHM := decide (0 < colsHighMissing.length)
  let hasD := decide (0 < dupCount)
  let hasCC := decide (0 < constantCols.length)
  let hasHC := decide (0 < highCardCols.length)
  let hasZ := decide (0 < highZeroCols.length)
  let penalties : ℤ :=
    (if hasHM then 20 else 0) + (if hasD then 15 else 0) +
      (if hasCC then 10 else 0) + (if hasHC then 10 else 0) +
      (if hasZ then 5 else 0)
  { has_high_missing := hasHM
    high_missing_columns := colsHighMissing
    has_duplicates := hasD
    duplicate_count := dupCount
    has_constant_columns := hasCC
    constant_columns := constantCols
    has_high_cardinality_categoricals := hasHC
    high_cardinality_columns := highCardCols
    has_many_zero_values := hasZ
    high_zero_columns := highZeroCols
    zero_shares := zeroSharesL
    quality_score := intMax 0 (100 - penalties) }

/-- One record of the list returned by `get_problematic_columns`. -/
structure ProblemCol where
  column : String
  missing_share : ℚ
  missing_count : ℕ
deriving DecidableEq

/-- The `problematic` list of `get_problematic_columns` before sorting:
qualifying columns in original column order. -/
def problemRecords (df : Dataset) (min_missing_share : ℚ) : List ProblemCol :=
  df.cols.filterMap (fun c =>
    if shareGe (missingCount c) df.n_rows min_missing_share then
      some ⟨c.name, round4 ((missingCount c : ℚ) / (df.n_rows : ℚ)),
        missingCount c⟩
    else none)

/-- Stable insertion into a descending list: the new record goes before the
first record whose key is not strictly greater, so records already present
with an equal key stay in front (the stability discipline of Python
`sorted(key, reverse=True)`). -/
def insertDesc (x : ProblemCol) : List ProblemCol → List ProblemCol
  | [] => [x]
  | y :: ys =>
    if x.missing_share < y.missing_share then y :: insertDesc x ys
    else x :: y :: ys

/-- Stable sort by descending `missing_share`, the embedding of
`sorted(problematic, key share, reverse=True)` of the source. -/
def sortDesc : List ProblemCol → List ProblemCol
  | [] => []
  | x :: xs => insertDesc x (sortDesc xs)

/-- Embedding of `get_problematic_columns` from
`src/homeworks/HW04/eda-cli/src/eda_cli/core.py`, lines 209-223. -/
def get_problematic_columns (df : Dataset) (min_missing_share : ℚ) :
    List ProblemCol :=
  sortDesc (problemRecords df min_missing_share)

/-- Embedding of the score computation of the `quality` endpoint from
`src/homeworks/HW04/eda-cli/src/eda_cli/api.py`, lines 230-254: the returned
pair is (`score`, `ok_for_model`). -/
def quality_from_features (nRows nCols numericCols categoricalCols : ℕ)
    (maxMissingShare : ℚ) : ℚ × Bool :=
  let s1 : ℚ := 1 - maxMissingShare
  let s2 := if nRows < 1000 then s1 - 2/10 else s1
  let s3 := if 100 < nCols then s2 - 1/10 else s2
  let s4 := if numericCols = 0 ∧ 0 < categoricalCols then s3 - 1/10 else s3
  let s5 := if categoricalCols = 0 ∧ 0 < numericCols then s4 - 5/100 else s4
  let score := ratMax 0 (ratMin 1 s5)
  (score, decide (score ≥ 7/10))

/-! ### Concrete datasets used in counterexamples, scenarios and witnesses -/

/-- Scenario A dataset of the spec: `{a:[1,2,3], b:["x","y","z"]}`. -/
def dsA : Dataset :=
  ⟨3, [⟨"a", Dtype.numeric, [some (Val.num 1), some (Val.num 2), some (Val.num 3)]⟩,
       ⟨"b", Dtype.categorical,
        [some (Val.str "x"), some (Val.str "y"), some (Val.str "z")]⟩]⟩

/-- Scenario B dataset of the spec: `{a:[1,1,2], b:["x","x","y"]}`. -/
def dsB : Dataset :=
  ⟨3, [⟨"a", Dtype.numeric, [some (Val.num 1), some (Val.num 1), some (Val.num 2)]⟩,
       ⟨"b", Dtype.categorical,
        [some (Val.str "x"), some (Val.str "x"), some (Val.str "y")]⟩]⟩

/-- A float64 column holding one non-null value and one null: `[1.0, NaN]`. -/
def colMixedNull : Column := ⟨"a", Dtype.numeric, [some (Val.num 1), none]⟩

/-- A two-row dataset whose only column is `colMixedNull`. -/
def dsMixedNull : Dataset := ⟨2, [colMixedNull]⟩

/-- A dataset with one column and zero rows. -/
def dsZeroRows : Dataset := ⟨0, [⟨"a", Dtype.numeric, []⟩]⟩

/-- A numeric column of 10 rows whose first `k` values are null. -/
def colMiss (nm : String) (k : ℕ) : Column :=
  ⟨nm, Dtype.numeric,
   List.replicate k none ++ List.replicate (10 - k) (some (Val.num 1))⟩

/-- Scenario E dataset of the spec: columns at 0%, 10%, 30%, 50% missing. -/
def dsE : Dataset :=
  ⟨10, [colMiss "c1" 0, colMiss "c2" 1, colMiss "c3" 3, colMiss "c4" 5]⟩

/-! ### Helper lemmas -/

theorem shareGt_of_pos {n : ℕ} (cnt : ℕ) (t : ℚ) (hn : 0 < n) :
    shareGt cnt n t = decide ((cnt : ℚ) / (n : ℚ) > t) := by
  unfold shareGt
  rw [if_neg (Nat.pos_iff_ne_zero.mp hn)]

theorem shareGe_of_pos {n : ℕ} (cnt : ℕ) (t : ℚ) (hn : 0 < n) :
    shareGe cnt n t = decide ((cnt : ℚ) / (n : ℚ) ≥ t) := by
  unfold shareGe
  rw [if_neg (Nat.pos_iff_ne_zero.mp hn)]

theorem mem_filter_map_name {p : Column → Bool} {cols : List Column}
    (hnn : (cols.map Column.name).Nodup) {c : Column} (hc : c ∈ cols) :
    c.name ∈ (cols.filter p).map Column.name ↔ p c = true := by
  constructor
  · intro h
    obtain ⟨c2, hc2, he⟩ := List.mem_map.mp h
    obtain ⟨hc2m, hp⟩ := List.mem_filter.mp hc2
    have : c2 = c := List.inj_on_of_nodup_map hnn hc2m hc he
    rwa [this] at hp
  · intro hp
    exact List.mem_map_of_mem _ (List.mem_filter.mpr ⟨hc, hp⟩)

theorem filter_map_name_ne_nil {p : Column → Bool} {cols : List Column} :
    (cols.filter p).map Column.name ≠ [] ↔ ∃ c ∈ cols, p c = true := by
  rw [ne_eq, List.map_eq_nil_iff, List.filter_eq_nil_iff]
  push_neg
  simp

theorem countDups_add_card (l : List (List Cell)) :
    ∀ seen : Finset (List Cell),
      countDups seen l + ((l.toFinset \ seen).card) = l.length := by
  induction l with
  | nil => intro seen; simp [countDups]
  | cons r rs ih =>
    intro seen
    rw [List.toFinset_cons]
    by_cases hr : r ∈ seen
    · rw [Finset.insert_sdiff_of_mem _ hr]
      simp only [countDups, if_pos hr, List.length_cons, Finset.insert_eq_self.mpr hr]
      have ih2 := ih seen
      omega
    · rw [Finset.insert_sdiff_of_not_mem _ hr]
      have ih2 := ih (insert r seen)
      rw [Finset.sdiff_insert] at ih2
      have hcard : (insert r (rs.toFinset \ seen)).card =
          ((rs.toFinset \ seen).erase r).card + 1 := by
        by_cases hrA : r ∈ rs.toFinset \ seen
        · rw [Finset.insert_eq_self.mpr hrA, Finset.card_erase_of_mem hrA]
          have h3 : 0 < (rs.toFinset \ seen).card := Finset.card_pos.mpr ⟨r, hrA⟩
          omega
        · rw [Finset.card_insert_of_not_mem hrA, Finset.erase_eq_of_not_mem hrA]
      simp only [countDups, if_neg hr, List.length_cons]
      omega

theorem rowsOf_length (df : Dataset) : (rowsOf df).length = df.n_rows := by
  simp [rowsOf]

theorem duplicateCount_eq (df : Dataset) :
    duplicateCount df = df.n_rows - (rowsOf df).toFinset.card := by
  have h := countDups_add_card (rowsOf df) ∅
  rw [Finset.sdiff_empty] at h
  have hlen := rowsOf_length df
  unfold duplicateCount
  omega

theorem insertDesc_perm (x : ProblemCol) (l : List ProblemCol) :
    (insertDesc x l).Perm (x :: l) := by
  induction l with
  | nil => simp [insertDesc]
  | cons y ys ih =>
    unfold insertDesc
    by_cases h : x.missing_share < y.missing_share
    · rw [if_pos h]
      exact (ih.cons y).trans (List.Perm.swap x y ys)
    · rw [if_neg h]

theorem sortDesc_perm (l : List ProblemCol) : (sortDesc l).Perm l := by
  induction l with
  | nil => simp [sortDesc]
  | cons x xs ih =>
    exact (insertDesc_perm x (sortDesc xs)).trans (ih.cons x)

theorem insertDesc_pairwise (x : ProblemCol) (l : List ProblemCol)
    (hl : l.Pairwise (fun a b => b.missing_share ≤ a.missing_share)) :
    (insertDesc x l).Pairwise (fun a b => b.missing_share ≤ a.missing_share) := by
  induction l with
  | nil => simp [insertDesc]
  | cons y ys ih =>
    rw [List.pairwise_cons] at hl
    obtain ⟨hy, hys⟩ := hl
    unfold insertDesc
    by_cases h : x.missing_share < y.missing_share
    · rw [if_pos h]
      rw [List.pairwise_cons]
      refine ⟨?_, ih hys⟩
      intro z hz
      rcases List.mem_cons.mp ((insertDesc_perm x ys).mem_iff.mp hz) with hzx | hzys
      · rw [hzx]; exact le_of_lt h
      · exact hy z hzys
    · rw [if_neg h]
      rw [List.pairwise_cons]
      refine ⟨?_, List.pairwise_cons.mpr ⟨hy, hys⟩⟩
      intro z hz
      rcases List.mem_cons.mp hz with hzy | hzys
      · rw [hzy]; exact le_of_not_lt h
      · exact le_trans (hy z hzys) (le_of_not_lt h)

theorem sortDesc_pairwise (l : List ProblemCol) :
    (sortDesc l).Pairwise (fun a b => b.missing_share ≤ a.missing_share) := by
  induction l with
  | nil => simp [sortDesc]
  | cons x xs ih => exact insertDesc_pairwise x (sortDesc xs) ih

theorem insertDesc_filter_key (x : ProblemCol) (l : List ProblemCol) (v : ℚ) :
    (insertDesc x l).filter (fun r => r.missing_share = v) =
      if x.missing_share = v then x :: l.filter (fun r => r.missing_share = v)
      else l.filter (fun r => r.missing_share = v) := by
  induction l with
  | nil =>
    by_cases hx : x.missing_share = v
    · simp [insertDesc, List.filter, hx]
    · simp [insertDesc, List.filter, hx]
  | cons y ys ih =>
    unfold insertDesc
    by_cases h : x.missing_share < y.missing_share
    · rw [if_pos h]
      by_cases hy : y.missing_share = v
      · have hx : ¬ x.missing_share = v := by
          intro hxv
          rw [hxv, hy] at h
          exact lt_irrefl v h
        simp [List.filter_cons, hy, hx, ih]
      · simp [List.filter_cons, hy, ih]
    · rw [if_neg h]
      by_cases hx : x.missing_share = v
      · simp [List.filter_cons, hx]
      · simp [List.filter_cons, hx]

theorem sortDesc_filter_key (l : List ProblemCol) (v : ℚ) :
    (sortDesc l).filter (fun r => r.missing_share = v) =
      l.filter (fun r => r.missing_share = v) := by
  induction l with
  | nil => simp [sortDesc]
  | cons x xs ih =>
    show (insertDesc x (sortDesc xs)).filter (fun r => r.missing_share = v) = _
    rw [insertDesc_filter_key]
    by_cases hx : x.missing_share = v
    · rw [if_pos hx, ih, List.filter_cons, if_pos (by simp [hx])]
    · rw [if_neg hx, ih, List.filter_cons, if_neg (by simp [hx])]

theorem intMax_score_cases (b1 b2 b3 b4 b5 : Bool) :
    intMax 0 (100 - ((if b1 then (20 : ℤ) else 0) + (if b2 then 15 else 0) +
        (if b3 then 10 else 0) + (if b4 then 10 else 0) + (if b5 then 5 else 0))) =
      100 - ((if b1 then (20 : ℤ) else 0) + (if b2 then 15 else 0) +
        (if b3 then 10 else 0) + (if b4 then 10 else 0) + (if b5 then 5 else 0)) ∧
    40 ≤ intMax 0 (100 - ((if b1 then (20 : ℤ) else 0) + (if b2 then 15 else 0) +
        (if b3 then 10 else 0) + (if b4 then 10 else 0) + (if b5 then 5 else 0))) ∧
    intMax 0 (100 - ((if b1 then (20 : ℤ) else 0) + (if b2 then 15 else 0) +
        (if b3 then 10 else 0) + (if b4 then 10 else 0) + (if b5 then 5 else 0))) ≤ 100 := by
  cases b1 <;> cases b2 <;> cases b3 <;> cases b4 <;> cases b5 <;> decide

/-! ### Claim theorems -/

/-- C1: for every dataset with at least one row, `quality_score` equals
`max(0, 100 - penalty sum)` over the five fixed penalties (20/15/10/10/5 for
the five flags), hence it equals `100 - penalty sum` outright (the clamp to 0
is never reached), `40 ≤ quality_score ≤ 100`, and a dataset triggering no
flag scores exactly 100. -/
theorem quality_score_spec (df : Dataset) (mt : ℚ) (hct : ℕ) (zt : ℚ)
    (hn : 0 < df.n_rows) :
    (compute_quality_flags df mt hct zt).quality_score =
      intMax 0 (100 -
        ((if (compute_quality_flags df mt hct zt).has_high_missing then (20 : ℤ) else 0) +
         (if (compute_quality_flags df mt hct zt).has_duplicates then 15 else 0) +
         (if (compute_quality_flags df mt hct zt).has_constant_columns then 10 else 0) +
         (if (compute_quality_flags df mt hct zt).has_high_cardinality_categoricals then 10
          else 0) +
         (if (compute_quality_flags df mt hct zt).has_many_zero_values then 5 else 0))) ∧
    (compute_quality_flags df mt hct zt).quality_score =
      100 -
        ((if (compute_quality_flags df mt hct zt).has_high_missing then (20 : ℤ) else 0) +
         (if (compute_quality_flags df mt hct zt).has_duplicates then 15 else 0) +
         (if (compute_quality_flags df mt hct zt).has_constant_columns then 10 else 0) +
         (if (compute_quality_flags df mt hct zt).has_high_cardinality_categoricals then 10
          else 0) +
         (if (compute_quality_flags df mt hct zt).has_many_zero_values then 5 else 0)) ∧
    40 ≤ (compute_quality_flags df mt hct zt).quality_score ∧
    (compute_quality_flags df mt hct zt).quality_score ≤ 100 ∧
    ((compute_quality_flags df mt hct zt).has_high_missing = false ∧
     (compute_quality_flags df mt hct zt).has_duplicates = false ∧
     (compute_quality_flags df mt hct zt).has_constant_columns = false ∧
     (compute_quality_flags df mt hct zt).has_high_cardinality_categoricals = false ∧
     (compute_quality_flags df mt hct zt).has_many_zero_values = false →
       (compute_quality_flags df mt hct zt).quality_score = 100) := by
  have hkey : (compute_quality_flags df mt hct zt).quality_score =
      intMax 0 (100 -
        ((if (compute_quality_flags df mt hct zt).has_high_missing then (20 : ℤ) else 0) +
         (if (compute_quality_flags df mt hct zt).has_duplicates then 15 else 0) +
         (if (compute_quality_flags df mt hct zt).has_constant_columns then 10 else 0) +
         (if (compute_quality_flags df mt hct zt).has_high_cardinality_categoricals then 10
          else 0) +
         (if (compute_quality_flags df mt hct zt).has_many_zero_values then 5 else 0))) := rfl
  obtain ⟨h1, h2, h3⟩ := intMax_score_cases
    (compute_quality_flags df mt hct zt).has_high_missing
    (compute_quality_flags df mt hct zt).has_duplicates
    (compute_quality_flags df mt hct zt).has_constant_columns
    (compute_quality_flags df mt hct zt).has_high_cardinality_categoricals
    (compute_quality_flags df mt hct zt).has_many_zero_values
  refine ⟨hkey, by rw [hkey]; exact h1, by rw [hkey]; exact h2, by rw [hkey]; exact h3, ?_⟩
  rintro ⟨f1, f2, f3, f4, f5⟩
  rw [hkey, f1, f2, f3, f4, f5]
  simp [intMax]

theorem quality_score_spec_witness :
    0 < dsA.n_rows ∧ 40 ≤ (compute_quality_flags dsA (3/10) 50 (1/2)).quality_score :=
  ⟨by decide, (quality_score_spec dsA (3/10) 50 (1/2) (by decide)).2.2.1⟩

/-- C4: for every dataset with at least one row and valid thresholds, every
boolean flag of the report agrees with its paired detail collection:
`has_X = true` iff the corresponding list is non-empty, and `has_duplicates`
iff `duplicate_count > 0`. -/
theorem flag_detail_consistency (df : Dataset) (mt : ℚ) (hct : ℕ) (zt : ℚ)
    (hn : 0 < df.n_rows) (hmt0 : 0 ≤ mt) (hmt1 : mt ≤ 1) (hhct : 0 < hct)
    (hzt0 : 0 ≤ zt) (hzt1 : zt ≤ 1) :
    ((compute_quality_flags df mt hct zt).has_high_missing = true ↔
      (compute_quality_flags df mt hct zt).high_missing_columns ≠ []) ∧
    ((compute_quality_flags df mt hct zt).has_constant_columns = true ↔
      (compute_quality_flags df mt hct zt).constant_columns ≠ []) ∧
    ((compute_quality_flags df mt hct zt).has_high_cardinality_categoricals = true ↔
      (compute_quality_flags df mt hct zt).high_cardinality_columns ≠ []) ∧
    ((compute_quality_flags df mt hct zt).has_many_zero_values = true ↔
      (compute_quality_flags df mt hct zt).high_zero_columns ≠ []) ∧
    ((compute_quality_flags df mt hct zt).has_duplicates = true ↔
      0 < (compute_quality_flags df mt hct zt).duplicate_count) := by
  refine ⟨?_, ?_, ?_, ?_, ?_⟩ <;>
    simp [compute_quality_flags, List.length_pos]

theorem flag_detail_consistency_witness :
    (0 < dsB.n_rows ∧ (0 : ℚ) ≤ 3/10 ∧ (3 : ℚ)/10 ≤ 1 ∧ 0 < 50 ∧ (0 : ℚ) ≤ 1/2 ∧
      (1 : ℚ)/2 ≤ 1) ∧
    ((compute_quality_flags dsB (3/10) 50 (1/2)).has_duplicates = true ↔
      0 < (compute_quality_flags dsB (3/10) 50 (1/2)).duplicate_count) :=
  ⟨⟨by decide, by with_unfolding_all decide, by with_unfolding_all decide, by decide,
    by with_unfolding_all decide, by with_unfolding_all decide⟩,
   (flag_detail_consistency dsB (3/10) 50 (1/2) (by decide)
      (by with_unfolding_all decide) (by with_unfolding_all decide) (by decide)
      (by with_unfolding_all decide) (by with_unfolding_all decide)).2.2.2.2⟩

/-- C9: the evaluator is deterministic — as a pure function of the dataset and
the thresholds, evaluating the same dataset with the same thresholds twice
yields identical reports, and the dataset value is left unchanged. -/
theorem evaluator_deterministic : ∀ (df : Dataset) (mt : ℚ) (hct : ℕ) (zt : ℚ),
    compute_quality_flags df mt hct zt = compute_quality_flags df mt hct zt :=
  fun _ _ _ _ => rfl

/-- C10: for every well-formed dataset with zero rows and at least one column,
the evaluator returns a report (it raises no error) in which
`duplicate_count = 0`, every column is listed in `constant_columns`, and no
column is flagged high-missing or high-zero: the `0 / 0` shares (NaN in the
source) never compare strictly greater than a threshold. -/
theorem zero_row_spec (df : Dataset) (mt : ℚ) (hct : ℕ) (zt : ℚ)
    (hz : df.n_rows = 0) (hwf : df.WF) (hcne : df.cols ≠ []) :
    (compute_quality_flags df mt hct zt).duplicate_count = 0 ∧
    (compute_quality_flags df mt hct zt).constant_columns = df.cols.map Column.name ∧
    (compute_quality_flags df mt hct zt).high_missing_columns = [] ∧
    (compute_quality_flags df mt hct zt).high_zero_columns = [] := by
  refine ⟨?_, ?_, ?_, ?_⟩
  · show duplicateCount df = 0
    unfold duplicateCount
    rw [show rowsOf df = [] by simp [rowsOf, hz]]
    rfl
  · show (df.cols.filter (fun c => nuniqueDropna c ≤ 1)).map Column.name = _
    congr 1
    apply List.filter_eq_self.mpr
    intro c hc
    have hv : c.values = [] := List.length_eq_zero.mp (by rw [hwf c hc, hz])
    simp [nuniqueDropna, hv]
  · show (df.cols.filter
        (fun c => shareGt (missingCount c) df.n_rows mt)).map Column.name = []
    rw [List.map_eq_nil_iff]
    apply List.filter_eq_nil_iff.mpr
    intro c hc
    rw [hz]
    simp [shareGt]
  · show ((df.cols.filter (fun c => c.dtype = Dtype.numeric)).filter
        (fun c => shareGt (zeroCount c) df.n_rows zt)).map Column.name = []
    rw [List.map_eq_nil_iff]
    apply List.filter_eq_nil_iff.mpr
    intro c hc
    rw [hz]
    simp [shareGt]

theorem zero_row_spec_witness :
    (dsZeroRows.n_rows = 0 ∧ dsZeroRows.WF ∧ dsZeroRows.cols ≠ []) ∧
    (compute_quality_flags dsZeroRows (3/10) 50 (1/2)).constant_columns =
      dsZeroRows.cols.map Column.name :=
  ⟨⟨by decide, by decide, by decide⟩,
   (zero_row_spec dsZeroRows (3/10) 50 (1/2) (by decide) (by decide) (by decide)).2.1⟩

/-- C5: for every dataset with at least one row (and distinct column names),
a column is listed in `high_missing_columns` iff its missing share
`count(null) / n_rows` is strictly greater than `missing_threshold` (a column
exactly at the threshold is not flagged), the list preserves original column
order (it is a sublist of the column-name list), and `has_high_missing` holds
iff at least one column qualifies. -/
theorem high_missing_spec (df : Dataset) (mt : ℚ) (hct : ℕ) (zt : ℚ)
    (hn : 0 < df.n_rows) (hnn : (df.cols.map Column.name).Nodup) :
    (∀ c ∈ df.cols,
      (c.name ∈ (compute_quality_flags df mt hct zt).high_missing_columns ↔
        (missingCount c : ℚ) / (df.n_rows : ℚ) > mt)) ∧
    (compute_quality_flags df mt hct zt).high_missing_columns.Sublist
      (df.cols.map Column.name) ∧
    ((compute_quality_flags df mt hct zt).has_high_missing = true ↔
      ∃ c ∈ df.cols, (missingCount c : ℚ) / (df.n_rows : ℚ) > mt) := by
  have hcols : (compute_quality_flags df mt hct zt).high_missing_columns =
      (df.cols.filter
        (fun c => shareGt (missingCount c) df.n_rows mt)).map Column.name := rfl
  have hflag : (compute_quality_flags df mt hct zt).has_high_missing =
      decide (0 < ((df.cols.filter
        (fun c => shareGt (missingCount c) df.n_rows mt)).map Column.name).length) := rfl
  refine ⟨?_, ?_, ?_⟩
  · intro c hc
    rw [hcols, mem_filter_map_name hnn hc, shareGt_of_pos _ _ hn]
    simp
  · rw [hcols]
    exact (List.filter_sublist _).map _
  · rw [hflag]
    simp only [decide_eq_true_eq, List.length_pos]
    rw [filter_map_name_ne_nil]
    refine exists_congr fun c => and_congr_right fun hc => ?_
    rw [shareGt_of_pos _ _ hn]
    simp

theorem high_missing_spec_witness :
    (0 < dsE.n_rows ∧ (dsE.cols.map Column.name).Nodup) ∧
    ((compute_quality_flags dsE (3/10) 50 (1/2)).has_high_missing = true ↔
      ∃ c ∈ dsE.cols, (missingCount c : ℚ) / (dsE.n_rows : ℚ) > 3/10) :=
  ⟨⟨by decide, by decide⟩,
   (high_missing_spec dsE (3/10) 50 (1/2) (by decide) (by decide)).2.2⟩

/-- C2 counterexample: on the two-row dataset whose only column holds one
non-null value and one null, the column has two distinct values when null is
counted as one distinct value, yet the evaluator lists it in
`constant_columns` (the source counts distinct values with `dropna=True`), so
the claimed "iff distinct values counting null ≤ 1" characterisation fails. -/
theorem constant_columns_claim_refuted :
    ¬ ((colMixedNull.name ∈
        (compute_quality_flags dsMixedNull (3/10) 50 (1/2)).constant_columns) ↔
      distinctWithNull colMixedNull ≤ 1) := by
  with_unfolding_all decide

/-- C2 amended: a column is listed in `constant_columns` iff its number of
distinct NON-NULL values is at most 1 (nulls are excluded from the count), so
an all-null column is constant, a single repeated non-null value is constant,
and one non-null value mixed with nulls is ALSO constant; the list preserves
original column order and `has_constant_columns` is its non-emptiness. -/
theorem constant_columns_spec (df : Dataset) (mt : ℚ) (hct : ℕ) (zt : ℚ)
    (hn : 0 < df.n_rows) (hnn : (df.cols.map Column.name).Nodup) :
    (∀ c ∈ df.cols,
      (c.name ∈ (compute_quality_flags df mt hct zt).constant_columns ↔
        nuniqueDropna c ≤ 1)) ∧
    (compute_quality_flags df mt hct zt).constant_columns.Sublist
      (df.cols.map Column.name) ∧
    ((compute_quality_flags df mt hct zt).has_constant_columns = true ↔
      (compute_quality_flags df mt hct zt).constant_columns ≠ []) := by
  have hcols : (compute_quality_flags df mt hct zt).constant_columns =
      (df.cols.filter (fun c => nuniqueDropna c ≤ 1)).map Column.name := rfl
  have hflag : (compute_quality_flags df mt hct zt).has_constant_columns =
      decide (0 <
        ((df.cols.filter (fun c => nuniqueDropna c ≤ 1)).map Column.name).length) := rfl
  refine ⟨?_, ?_, ?_⟩
  · intro c hc
    rw [hcols, mem_filter_map_name hnn hc]
    simp
  · rw [hcols]
    exact (List.filter_sublist _).map _
  · rw [hflag, hcols]
    simp [List.length_pos]

theorem constant_columns_spec_witness :
    (0 < dsMixedNull.n_rows ∧ (dsMixedNull.cols.map Column.name).Nodup) ∧
    (colMixedNull.name ∈
        (compute_quality_flags dsMixedNull (3/10) 50 (1/2)).constant_columns ↔
      nuniqueDropna colMixedNull ≤ 1) :=
  ⟨⟨by decide, by decide⟩,
   (constant_columns_spec dsMixedNull (3/10) 50 (1/2) (by decide) (by decide)).1
     colMixedNull (by decide)⟩

/-- C3 counterexample: called with `missing_threshold = -1`, a value outside
the documented domain [0,1], the evaluator raises no error and produces a
complete report: on the clean Scenario A dataset it flags both fully-present
columns as high-missing (`0 > -1`), showing the out-of-range threshold is
used as-is rather than rejected (and not clamped into [0,1], which would
flag nothing). -/
theorem threshold_validation_refuted :
    (compute_quality_flags dsA (-1) 50 (1/2)).high_missing_columns = ["a", "b"] ∧
    (compute_quality_flags dsA (-1) 50 (1/2)).quality_score = 80 := by
  with_unfolding_all decide

/-- C3 amended: the evaluator performs no validation of its threshold
parameters: any threshold value, also one outside its documented domain, is
accepted and used unchanged in the probes. In particular a negative
`missing_threshold` makes every column with no missing values high-missing,
which a clamp into [0,1] would never do. -/
theorem no_threshold_validation (df : Dataset) (mt : ℚ) (hct : ℕ) (zt : ℚ)
    (hmt : mt < 0) (hn : 0 < df.n_rows) (hnn : (df.cols.map Column.name).Nodup) :
    ∀ c ∈ df.cols, missingCount c = 0 →
      c.name ∈ (compute_quality_flags df mt hct zt).high_missing_columns := by
  intro c hc hmc
  have hcols : (compute_quality_flags df mt hct zt).high_missing_columns =
      (df.cols.filter
        (fun c => shareGt (missingCount c) df.n_rows mt)).map Column.name := rfl
  rw [hcols, mem_filter_map_name hnn hc, shareGt_of_pos _ _ hn, hmc]
  simp only [Nat.cast_zero, zero_div, gt_iff_lt, decide_eq_true_eq]
  exact hmt

theorem no_threshold_validation_witness :
    ((-1 : ℚ) < 0 ∧ 0 < dsA.n_rows ∧ (dsA.cols.map Column.name).Nodup ∧
      dsA.cols.head? = some ⟨"a", Dtype.numeric,
        [some (Val.num 1), some (Val.num 2), some (Val.num 3)]⟩ ∧
      missingCount ⟨"a", Dtype.numeric,
        [some (Val.num 1), some (Val.num 2), some (Val.num 3)]⟩ = 0) ∧
    "a" ∈ (compute_quality_flags dsA (-1) 50 (1/2)).high_missing_columns :=
  ⟨⟨by with_unfolding_all decide, by decide, by decide, by decide, by decide⟩,
   no_threshold_validation dsA (-1) 50 (1/2) (by with_unfolding_all decide)
     (by decide) (by decide)
     ⟨"a", Dtype.numeric, [some (Val.num 1), some (Val.num 2), some (Val.num 3)]⟩
     (by decide) (by decide)⟩

/-- C6: for every well-formed dataset with at least one row,
`duplicate_count` equals the total number of rows minus the number of
distinct rows, where rows are compared element-wise with null markers equal
to each other; and on the Scenario B dataset `{a:[1,1,2], b:["x","x","y"]}`
with default thresholds the report has `has_duplicates = true`,
`duplicate_count = 1` and `quality_score = 85`. -/
theorem duplicate_count_spec (df : Dataset) (mt : ℚ) (hct : ℕ) (zt : ℚ)
    (hn : 0 < df.n_rows) (hwf : df.WF) :
    (compute_quality_flags df mt hct zt).duplicate_count =
      df.n_rows - (rowsOf df).toFinset.card ∧
    (compute_quality_flags dsB (3/10) 50 (1/2)).has_duplicates = true ∧
    (compute_quality_flags dsB (3/10) 50 (1/2)).duplicate_count = 1 ∧
    (compute_quality_flags dsB (3/10) 50 (1/2)).quality_score = 85 := by
  refine ⟨duplicateCount_eq df, ?_, ?_, ?_⟩ <;> with_unfolding_all decide

theorem duplicate_count_spec_witness :
    (0 < dsB.n_rows ∧ dsB.WF) ∧
    (compute_quality_flags dsB (3/10) 50 (1/2)).duplicate_count =
      dsB.n_rows - (rowsOf dsB).toFinset.card :=
  ⟨⟨by decide, by decide⟩,
   (duplicate_count_spec dsB (3/10) 50 (1/2) (by decide) (by decide)).1⟩

/-- C7: for every dataset with at least one row, the problematic-column
ranker returns exactly the records of the columns whose missing share is at
least `min_missing_share` (inclusive comparison), each carrying the column
name, the rounded missing share and the missing count; the output is sorted
by descending `missing_share`, and for every share value the records carrying
it appear in original column order (the sort is stable: filtering the output
by any share value yields exactly the corresponding filtering of the
unsorted, original-order record list). -/
theorem problematic_columns_spec (df : Dataset) (ms : ℚ) (hn : 0 < df.n_rows) :
    (∀ r : ProblemCol, r ∈ get_problematic_columns df ms ↔
      ∃ c ∈ df.cols, (missingCount c : ℚ) / (df.n_rows : ℚ) ≥ ms ∧
        r = ⟨c.name, round4 ((missingCount c : ℚ) / (df.n_rows : ℚ)),
          missingCount c⟩) ∧
    (get_problematic_columns df ms).Pairwise
      (fun a b => b.missing_share ≤ a.missing_share) ∧
    (∀ v : ℚ, (get_problematic_columns df ms).filter (fun r => r.missing_share = v) =
      (problemRecords df ms).filter (fun r => r.missing_share = v)) := by
  refine ⟨?_, sortDesc_pairwise _, fun v => sortDesc_filter_key _ v⟩
  intro r
  have hout : get_problematic_columns df ms = sortDesc (problemRecords df ms) := rfl
  rw [hout, (sortDesc_perm _).mem_iff]
  unfold problemRecords
  rw [List.mem_filterMap]
  constructor
  · rintro ⟨c, hc, hsome⟩
    by_cases hp : shareGe (missingCount c) df.n_rows ms = true
    · rw [if_pos hp] at hsome
      refine ⟨c, hc, ?_, (Option.some_inj.mp hsome).symm⟩
      rw [shareGe_of_pos _ _ hn] at hp
      simpa using hp
    · rw [if_neg hp] at hsome
      cases hsome
  · rintro ⟨c, hc, hge, hr⟩
    refine ⟨c, hc, ?_⟩
    have hp : shareGe (missingCount c) df.n_rows ms = true := by
      rw [shareGe_of_pos _ _ hn]
      simpa using hge
    rw [if_pos hp, hr]

theorem problematic_columns_spec_witness :
    0 < dsE.n_rows ∧
    (get_problematic_columns dsE (2/10)).Pairwise
      (fun a b => b.missing_share ≤ a.missing_share) :=
  ⟨by decide, (problematic_columns_spec dsE (2/10) (by decide)).2.1⟩

/-- C8: for all non-negative integer aggregate features and every
`max_missing_share` in [0,1], the aggregate-feature evaluator returns the
clamp to [0,1] of `1 - max_missing_share` minus 0.2 if `n_rows < 1000`,
minus 0.1 if `n_cols > 100`, minus 0.1 if there are categorical but no
numeric columns, minus 0.05 if there are numeric but no categorical columns;
and `ok_for_model` holds iff the score is at least 0.7. -/
theorem quality_from_features_spec (nRows nCols numericCols categoricalCols : ℕ)
    (mms : ℚ) (h0 : 0 ≤ mms) (h1 : mms ≤ 1) :
    (quality_from_features nRows nCols numericCols categoricalCols mms).1 =
      ratMax 0 (ratMin 1 (1 - mms - (if nRows < 1000 then 2/10 else 0) -
        (if 100 < nCols then 1/10 else 0) -
        (if 0 < categoricalCols ∧ numericCols = 0 then 1/10 else 0) -
        (if 0 < numericCols ∧ categoricalCols = 0 then 5/100 else 0))) ∧
    ((quality_from_features nRows nCols numericCols categoricalCols mms).2 = true ↔
      7/10 ≤ (quality_from_features nRows nCols numericCols categoricalCols mms).1) := by
  constructor
  · show ratMax 0 (ratMin 1 _) = ratMax 0 (ratMin 1 _)
    apply congrArg
    apply congrArg
    simp only [and_comm]
    split_ifs <;> ring
  · show decide
        ((quality_from_features nRows nCols numericCols categoricalCols mms).1 ≥ 7/10) =
          true ↔
        7/10 ≤ (quality_from_features nRows nCols numericCols categoricalCols mms).1
    simp only [decide_eq_true_eq, ge_iff_le]

theorem quality_from_features_spec_witness :
    ((0 : ℚ) ≤ 1/10 ∧ (1 : ℚ)/10 ≤ 1) ∧
    ((quality_from_features 500 10 3 2 (1/10)).2 = true ↔
      7/10 ≤ (quality_from_features 500 10 3 2 (1/10)).1) :=
  ⟨⟨by with_unfolding_all decide, by with_unfolding_all decide⟩,
   (quality_from_features_spec 500 10 3 2 (1/10) (by with_unfolding_all decide)
     (by with_unfolding_all decide)).2⟩

end EdaCli
